import Mathlib

/-!
# Verification of the Aravis v4l2 device adapter and stream

A shallow embedding of the v4l2 backend of the Aravis camera library:

* `arvv4l2device.c` (`src/unnamed/part_000`): the register-addressed device
  adapter (`arv_v4l2_device_read_memory`, `arv_v4l2_device_write_memory`,
  the format-enumeration part of `arv_v4l2_device_constructed`).
* `arvv4l2stream.c` (`src/src/arvv4l2stream.c`): the capture thread
  (`arv_v4l2_stream_thread`), modelled as a deterministic fold over an
  oracle trace describing the kernel's and the exchange queue's behaviour.

Machine integers are modelled as `Nat` (all quantities involved stay far
below 2^32 in the scenarios of interest; where byte images of 32-bit
values matter they are reduced `% 2^32`).  Fallible calls are modelled by
`Option`/explicit result records, and the buffer argument of the memory
operations by an optional list of written bytes.
-/

namespace ArvV4l2

/-! ## Fixed register addresses (arvv4l2device.c, lines 37-47) -/

def ARV_V4L2_ADDRESS_DEVICE_VENDOR_NAME : Nat := 0x0048
def ARV_V4L2_ADDRESS_DEVICE_MODEL_NAME : Nat := 0x0068
def ARV_V4L2_ADDRESS_DEVICE_VERSION : Nat := 0x0088
def ARV_V4L2_ADDRESS_DEVICE_MANUFACTURER_INFO : Nat := 0x00a8
def ARV_V4L2_ADDRESS_DEVICE_ID : Nat := 0x00d8

def ARV_V4L2_ADDRESS_WIDTH : Nat := 0x0100
def ARV_V4L2_ADDRESS_HEIGHT : Nat := 0x0104
def ARV_V4L2_ADDRESS_PAYLOAD_SIZE : Nat := 0x0118
def ARV_V4L2_ADDRESS_ACQUISITION_COMMAND : Nat := 0x0124
def ARV_V4L2_ADDRESS_PIXEL_FORMAT : Nat := 0x0128

/-! ## Kernel (linux/videodev2.h) constants used by the code

The v4l2 pixel format codes are the kernel's fourcc values; the frame-size
type constants are the kernel ABI values. -/

def V4L2_PIX_FMT_RGB24 : Nat := 0x33424752
def V4L2_PIX_FMT_BGR24 : Nat := 0x33524742
def V4L2_PIX_FMT_YUYV : Nat := 0x56595559

def V4L2_FRMSIZE_TYPE_DISCRETE : Nat := 1

/-- Modelled from the spec: the generic ("genicam") pixel format codes come
from an Aravis header that is not part of the sources under scrutiny; the
spec treats them as opaque nonzero codes (the sentinel for "unsupported"
being 0).  The concrete values below are the GenICam PFNC codes; no claim
depends on the particular values, only on their being nonzero and distinct. -/
def ARV_PIXEL_FORMAT_RGB_8_PACKED : Nat := 0x02180014

/-- Modelled from the spec: see `ARV_PIXEL_FORMAT_RGB_8_PACKED`. -/
def ARV_PIXEL_FORMAT_BGR_8_PACKED : Nat := 0x02180015

/-- Modelled from the spec: see `ARV_PIXEL_FORMAT_RGB_8_PACKED`. -/
def ARV_PIXEL_FORMAT_YUV_422_PACKED : Nat := 0x0210001f

/-- The fixed v4l2-to-generic translation table `pixel_format_map`
(arvv4l2device.c, lines 54-58). -/
def pixel_format_map : List (Nat × Nat) :=
  [(V4L2_PIX_FMT_RGB24, ARV_PIXEL_FORMAT_RGB_8_PACKED),
   (V4L2_PIX_FMT_BGR24, ARV_PIXEL_FORMAT_BGR_8_PACKED),
   (V4L2_PIX_FMT_YUYV, ARV_PIXEL_FORMAT_YUV_422_PACKED)]

/-! ## Error model (arvdevice.h error codes used by this file) -/

inductive ArvDeviceError where
  | not_found
  | genicam_not_found
  | invalid_address
  | protocol_error
deriving DecidableEq, Repr

/-! ## `struct v4l2_frmsizeenum` and device private state -/

/-- The fields of `struct v4l2_frmsizeenum` that the code reads: the
frame-size type discriminator and the discrete / stepwise size unions. -/
structure Frmsizeenum where
  type : Nat
  disc_width : Nat
  disc_height : Nat
  step_min_width : Nat
  step_max_width : Nat
  step_min_height : Nat
  step_max_height : Nat
deriving DecidableEq, Repr

/-- An all-zero `v4l2_frmsizeenum`, as produced by `GArray` zero-filling. -/
def zeroFrmsize : Frmsizeenum := ⟨0, 0, 0, 0, 0, 0, 0⟩

/-- The fields of `ArvV4l2DevicePrivate` that the register-access paths
touch.  C strings are byte lists (without their terminating null);
`pixel_format_idx` is modelled as `Nat` since the code only ever assigns
it nonnegative loop indices. -/
structure ArvV4l2DevicePrivate where
  device_file : List Nat
  device_card : List Nat
  device_version : List Nat
  device_driver : List Nat
  sensor_width : Nat
  sensor_height : Nat
  pixel_format_idx : Nat
  pixel_formats : List Nat
  frame_sizes : List Frmsizeenum
deriving DecidableEq, Repr

/-! ## `strncpy` and the identity-string read paths -/

/-- `strncpy (dst, src, n)` restricted to the `n` bytes it writes: copies
`src` up to (excluding) its first null byte, zero-filling the remainder,
always producing exactly `n` bytes. -/
def strncpy_model : List Nat → Nat → List Nat
  | _, 0 => []
  | [], n + 1 => List.replicate (n + 1) 0
  | b :: rest, n + 1 =>
      if b = 0 then List.replicate (n + 1) 0 else b :: strncpy_model rest n

/-- The byte image a successful identity-string read of `size` bytes
leaves in the caller's buffer: `strncpy (buffer, src, size - 1)` followed
by `buffer[size - 1] = 0` (arvv4l2device.c, lines 196-210). -/
def strncpy_write (src : List Nat) (size : Nat) : List Nat :=
  strncpy_model src (size - 1) ++ [0]

/-- The bytes of the literal `"Aravis"` returned for the manufacturer-info
address. -/
def aravis_bytes : List Nat := [0x41, 0x72, 0x61, 0x76, 0x69, 0x73]

/-- Little-endian 4-byte image of a 32-bit value, as left by
`memcpy (buffer, &value, 4)` on a little-endian host. -/
def u32bytes (n : Nat) : List Nat :=
  [n % 256, n / 256 % 256, n / 65536 % 256, n / 16777216 % 256]

/-- Result of `arv_v4l2_device_read_memory`: the returned `gboolean`, the
`GError` left in `*error` (if any) and the bytes written into the caller's
buffer (`none` when the buffer is left untouched). -/
structure ReadResult where
  ok : Bool
  err : Option ArvDeviceError
  written : Option (List Nat)
deriving DecidableEq, Repr

/-- `arv_v4l2_device_read_memory` (arvv4l2device.c, lines 185-260).

`payload_oracle` stands for the `arv_v4l2_device_get_image_infos` call
made for the payload-size address: `some p` when its two ioctls succeed
and report image size `p`, `none` when it fails — in which case the
stack variable `value` keeps its indeterminate initial content, modelled
by the parameter `uninit` (the code ignores the call's return value).
`buffer_null` states whether the caller passed a NULL buffer. -/
def arv_v4l2_device_read_memory (priv : ArvV4l2DevicePrivate)
    (payload_oracle : Option Nat) (uninit : Nat)
    (address size : Nat) (buffer_null : Bool) : ReadResult :=
  if size < 1 ∨ buffer_null then ⟨false, none, none⟩
  else if address = ARV_V4L2_ADDRESS_DEVICE_VENDOR_NAME then
    ⟨true, none, some (strncpy_write priv.device_driver size)⟩
  else if address = ARV_V4L2_ADDRESS_DEVICE_MODEL_NAME then
    ⟨true, none, some (strncpy_write priv.device_card size)⟩
  else if address = ARV_V4L2_ADDRESS_DEVICE_VERSION then
    ⟨true, none, some (strncpy_write priv.device_version size)⟩
  else if address = ARV_V4L2_ADDRESS_DEVICE_MANUFACTURER_INFO then
    ⟨true, none, some (strncpy_write aravis_bytes size)⟩
  else if address = ARV_V4L2_ADDRESS_DEVICE_ID then
    ⟨true, none, some (strncpy_write priv.device_file size)⟩
  else if size = 4 then
    if priv.pixel_format_idx < priv.frame_sizes.length ∧
        priv.pixel_format_idx < priv.pixel_formats.length then
      let fs := priv.frame_sizes.getD priv.pixel_format_idx zeroFrmsize
      if address = ARV_V4L2_ADDRESS_WIDTH then
        ⟨true, none, some (u32bytes (if fs.type = V4L2_FRMSIZE_TYPE_DISCRETE then
          fs.disc_width else fs.step_max_width))⟩
      else if address = ARV_V4L2_ADDRESS_HEIGHT then
        ⟨true, none, some (u32bytes (if fs.type = V4L2_FRMSIZE_TYPE_DISCRETE then
          fs.disc_height else fs.step_max_height))⟩
      else if address = ARV_V4L2_ADDRESS_PAYLOAD_SIZE then
        ⟨true, none, some (u32bytes (payload_oracle.getD uninit))⟩
      else if address = ARV_V4L2_ADDRESS_PIXEL_FORMAT then
        ⟨true, none, some (u32bytes (priv.pixel_formats.getD priv.pixel_format_idx 0))⟩
      else ⟨false, some .invalid_address, none⟩
    else ⟨false, some .invalid_address, none⟩
  else
    -- size ≠ 4 at a non-identity address: the `if (size == sizeof (value))`
    -- block is skipped, `found` keeps its initial TRUE, nothing is written.
    ⟨true, none, none⟩

/-! ## `arv_v4l2_device_write_memory` -/

/-- The pixel-format search loop of `arv_v4l2_device_write_memory`
(arvv4l2device.c, lines 278-281): `for (i = 0; i < len; i++) if (pf[i] ==
value) idx = i;`.  Returns the final value of `i` and of
`pixel_format_idx`.  There is no `break`: the loop always runs to
completion, so the returned `i` is always the table length. -/
def pf_search_loop : List Nat → Nat → Nat → Nat → Nat × Nat
  | [], _, i, idx => (i, idx)
  | p :: rest, v, i, idx =>
      pf_search_loop rest v (i + 1) (if p = v then i else idx)

/-- Result of `arv_v4l2_device_write_memory`: returned `gboolean`, `GError`
left in `*error`, the resulting `pixel_format_idx`, and whether
`_control_stream` was invoked (and with which enable flag). -/
structure WriteResult where
  ok : Bool
  err : Option ArvDeviceError
  pixel_format_idx : Nat
  stream_control : Option Bool
deriving DecidableEq, Repr

/-- `arv_v4l2_device_write_memory` (arvv4l2device.c, lines 262-301).
`value` is the 32-bit value `memcpy`'d out of the caller's buffer.  (The
write-back `memcpy (buffer, &value, 4)` on the `found` path copies the
unchanged value back and is observationally a no-op, so it is not
modelled.) -/
def arv_v4l2_device_write_memory (priv : ArvV4l2DevicePrivate)
    (address size value : Nat) : WriteResult :=
  if size = 4 then
    if address = ARV_V4L2_ADDRESS_ACQUISITION_COMMAND then
      ⟨true, none, priv.pixel_format_idx, some (value ≠ 0)⟩
    else if address = ARV_V4L2_ADDRESS_PIXEL_FORMAT then
      let r := pf_search_loop priv.pixel_formats value 0 priv.pixel_format_idx
      if r.1 = priv.pixel_formats.length then
        ⟨false, some .invalid_address, r.2, none⟩
      else ⟨true, none, r.2, none⟩
    else ⟨false, some .invalid_address, priv.pixel_format_idx, none⟩
  else
    -- size ≠ 4: the whole switch is skipped and `found` stays TRUE.
    ⟨true, none, priv.pixel_format_idx, none⟩

/-! ## Format enumeration in `arv_v4l2_device_constructed`
(arvv4l2device.c, lines 433-529) -/

/-- One kernel format as reported by `VIDIOC_ENUM_FMT` together with the
frame sizes its `VIDIOC_ENUM_FRAMESIZES` sub-enumeration reports (the
kernel oracle: enumeration at index `i`/`j` succeeds exactly while the
index is within the list). -/
structure FmtDesc where
  pixelformat : Nat
  description : String
  frame_sizes : List Frmsizeenum
deriving DecidableEq, Repr

/-- A default `FmtDesc` for `getD`. -/
def dfltFmt : FmtDesc := ⟨0, "", []⟩

/-- The `k` loop over `pixel_format_map` (lines 454-457):
`genicam_pixel_format` starts at 0 and every matching row overwrites it. -/
def pfmLookup (code : Nat) : Nat :=
  pixel_format_map.foldl (fun acc e => if code = e.1 then e.2 else acc) 0

/-- Whether a kernel format code translates to a supported (nonzero)
generic code. -/
def is_supported (f : FmtDesc) : Bool := pfmLookup f.pixelformat ≠ 0

/-- `g_array_insert_val (a, i, v)` on an array created with zero-clearing:
within bounds it inserts shifting the tail; past the end the array is
first expanded with zeroed elements. -/
def g_array_insert (l : List α) (i : Nat) (v : α) (zero : α) : List α :=
  if i ≤ l.length then l.take i ++ v :: l.drop i
  else l ++ List.replicate (i - l.length) zero ++ [v]

/-- `g_array_set_size (a, n)` on a zero-clearing array: truncate or
zero-extend to length `n`. -/
def g_array_set_size (l : List α) (n : Nat) (zero : α) : List α :=
  if n ≤ l.length then l.take n else l ++ List.replicate (n - l.length) zero

/-- State threaded through the enumeration loop: the private fields it
mutates plus the `format_feature` string under construction, modelled as
the ordered list of `(description, value)` pairs for which an
`<EnumEntry>` fragment has been appended. -/
structure ConstructState where
  priv : ArvV4l2DevicePrivate
  enum_entries : List (String × Nat)
deriving DecidableEq, Repr

/-- The inner `j` loop over frame sizes (lines 475-502): every reported
frame size folds its maxima into the sensor dimensions (discrete sizes
via the discrete fields, others via the stepwise max fields), and the
first one (`j == 0`) is inserted verbatim into `frame_sizes` at the
format index `i`. -/
def frame_sizes_loop : ConstructState → Nat → Nat → List Frmsizeenum → ConstructState
  | st, _, _, [] => st
  | st, i, j, fs :: rest =>
      let p := st.priv
      let p :=
        if fs.type = V4L2_FRMSIZE_TYPE_DISCRETE then
          { p with sensor_width := max p.sensor_width fs.disc_width,
                   sensor_height := max p.sensor_height fs.disc_height }
        else
          { p with sensor_width := max p.sensor_width fs.step_max_width,
                   sensor_height := max p.sensor_height fs.step_max_height }
      let p :=
        if j = 0 then
          { p with frame_sizes := g_array_insert p.frame_sizes i fs zeroFrmsize }
        else p
      frame_sizes_loop { st with priv := p } i (j + 1) rest

/-- The body of the outer `i` loop for one enumerated format (lines
443-502): translate the kernel code, record it in `pixel_formats` at
index `i`, and — unless the translation is the 0 sentinel (`continue`) —
append the `<EnumEntry>` fragment, set `pixel_format_idx` to `i`, and run
the frame-size sub-enumeration. -/
def process_format (st : ConstructState) (i : Nat) (f : FmtDesc) : ConstructState :=
  let g := pfmLookup f.pixelformat
  let st := { st with priv :=
    { st.priv with pixel_formats := g_array_insert st.priv.pixel_formats i g 0 } }
  if g = 0 then st
  else
    let st := { st with
      enum_entries := st.enum_entries ++ [(f.description, g)],
      priv := { st.priv with pixel_format_idx := i } }
    frame_sizes_loop st i 0 f.frame_sizes

/-- The outer enumeration loop, from format index `i` on. -/
def construct_loop : ConstructState → Nat → List FmtDesc → ConstructState
  | st, _, [] => st
  | st, i, f :: rest => construct_loop (process_format st i f) (i + 1) rest

/-- The enumeration part of `arv_v4l2_device_constructed` (lines 433-510):
starting from the zero-initialised fields, run the loop over every format
the kernel reports, then `g_array_set_size` both tables to the final loop
index (the number of reported formats).  The identity strings are those
captured earlier from the capability structure and are irrelevant here. -/
def arv_v4l2_device_constructed (strings : List Nat × List Nat × List Nat × List Nat)
    (fmts : List FmtDesc) : ConstructState :=
  let st0 : ConstructState :=
    { priv := { device_file := strings.1, device_card := strings.2.1,
                device_version := strings.2.2.1, device_driver := strings.2.2.2,
                sensor_width := 0, sensor_height := 0,
                pixel_format_idx := 0, pixel_formats := [], frame_sizes := [] },
      enum_entries := [] }
  let st := construct_loop st0 0 fmts
  { st with priv := { st.priv with
      pixel_formats := g_array_set_size st.priv.pixel_formats fmts.length 0,
      frame_sizes := g_array_set_size st.priv.frame_sizes fmts.length zeroFrmsize } }

/-- Rendering of one appended `<EnumEntry>` fragment of the
`format_feature` string (lines 466-471). -/
def render_enum_entry (e : String × Nat) : String :=
  "  <EnumEntry Name=\"" ++ e.1 ++ "\">\n    <Value>" ++ toString e.2 ++
    "</Value>\n  </EnumEntry>\n"

/-- The full `PixelFormat` enumeration node injected into the schema
(lines 439-440, 466-471, 508-510). -/
def format_feature_text (entries : List (String × Nat)) : String :=
  "<Enumeration Name=\"PixelFormat\">\n  <DisplayName>Pixel format</DisplayName>\n" ++
    String.join (entries.map render_enum_entry) ++
    "  <pValue>PixelFormatRegister</pValue>\n</Enumeration>"

/-! ## The capture thread `arv_v4l2_stream_thread`
(arvv4l2stream.c, lines 88-195)

The thread is modelled as a deterministic fold over a trace of per-
iteration oracles describing what the exchange queue and the kernel do.
The `select` call (lines 132-138) only logs on error and has no effect on
the state, so it does not appear in the oracle. -/

/-- Buffer status / payload-type values stamped by the thread. -/
inductive ArvBufferStatus where
  | success
deriving DecidableEq, Repr

/-- The metadata the dequeue path stamps on a delivered buffer
(arvv4l2stream.c, lines 150-169). -/
structure BufferMeta where
  status : ArvBufferStatus
  timestamp_ns : Nat
  system_timestamp_ns : Int
  frame_id : Nat
  received_size : Nat
  part_pixel_format : Nat
  part_width : Nat
  part_height : Nat
deriving DecidableEq, Repr

/-- One push onto the output side of the exchange queue: the buffer
(identified by a ghost id) and, when the push comes from the dequeue
path, the metadata freshly stamped on it (`none` for the pushes on the
submit-failure path and in the shutdown drain, which leave the buffer's
metadata alone). -/
structure OutputPush where
  buf_id : Nat
  stamped : Option BufferMeta
deriving DecidableEq, Repr

/-- One successful `arv_stream_pop_input_buffer` during the submit phase:
the popped buffer, its construction-time `"v4l2-index"` tag, and whether
the `VIDIOC_QBUF` ioctl for it succeeds. -/
structure PopEvent where
  buf_id : Nat
  slot : Nat
  qbuf_ok : Bool
deriving DecidableEq, Repr

/-- Outcome of the `VIDIOC_DQBUF` ioctl of one iteration.  On success the
kernel fills `bufd` with the completed slot index, timestamp and byte
length.  On failure the code only logs: `bufd.index` keeps the value 0
the code just stored into it (line 142), while the timestamp and length
fields keep whatever the iteration left in them (modelled as arbitrary
leftover values). -/
inductive DqResult where
  | success (index tv_sec tv_usec length : Nat)
  | failure (leftover_sec leftover_usec leftover_length : Nat)
deriving DecidableEq, Repr

/-- The oracle for one loop iteration: the sequence of buffers the
non-blocking pop drains from the input side (with their QBUF outcomes),
the DQBUF outcome, and the value `g_get_real_time ()` returns
(microseconds) if a buffer gets stamped. -/
structure IterOracle where
  popped : List PopEvent
  dq : DqResult
  real_time_us : Int
deriving DecidableEq, Repr

/-- Thread-local state: the `buffers` hash table (slot index to buffer,
an association list with `g_hash_table_replace` semantics), the frame
counter, the statistics counters the loop updates, and the sequence of
output pushes so far.  `pixel_format` / `image_width` / `image_height`
are the values captured by `start_acquisition`. -/
structure ThreadState where
  buffers : List (Nat × Nat)
  frame_id : Nat
  n_completed_buffers : Nat
  n_transferred_bytes : Nat
  output : List OutputPush
  pixel_format : Nat
  image_width : Nat
  image_height : Nat
deriving DecidableEq, Repr

/-- `g_hash_table_replace`: overwrite the entry with the given key, or
append a new one. -/
def htReplace (m : List (Nat × Nat)) (k v : Nat) : List (Nat × Nat) :=
  if m.any (fun e => e.1 = k) then
    m.map (fun e => if e.1 = k then (k, v) else e)
  else m ++ [(k, v)]

/-- `g_hash_table_lookup`. -/
def htLookup (m : List (Nat × Nat)) (k : Nat) : Option Nat :=
  (m.find? (fun e => e.1 = k)).map (fun e => e.2)

/-- The submit phase (lines 115-130): each popped buffer is QBUF'd; on
ioctl failure it is pushed straight back to the output side, otherwise it
is recorded in the hash table under its slot index. -/
def submit_phase : ThreadState → List PopEvent → ThreadState
  | st, [] => st
  | st, e :: rest =>
      let st :=
        if e.qbuf_ok then { st with buffers := htReplace st.buffers e.slot e.buf_id }
        else { st with output := st.output ++ [⟨e.buf_id, none⟩] }
      submit_phase st rest

/-- The dequeue phase (lines 140-179): `bufd.index` is reset to 0, DQBUF
is attempted (a failure only logs, leaving `bufd.index = 0`), the slot is
looked up in the hash table — without removal — and, if a buffer is
found, it is stamped and pushed to the output side; otherwise the
completion is only logged. -/
def dequeue_phase (st : ThreadState) (dq : DqResult) (now_us : Int) : ThreadState :=
  let probe : Nat × Nat × Nat × Nat :=
    match dq with
    | .success index sec usec len => (index, sec, usec, len)
    | .failure sec usec len => (0, sec, usec, len)
  match htLookup st.buffers probe.1 with
  | some b =>
      let meta : BufferMeta :=
        { status := .success,
          timestamp_ns := 1000000000000 * probe.2.1 + 1000 * probe.2.2.1,
          system_timestamp_ns := now_us * 1000,
          frame_id := st.frame_id,
          received_size := probe.2.2.2,
          part_pixel_format := st.pixel_format,
          part_width := st.image_width,
          part_height := st.image_height }
      { st with
          frame_id := st.frame_id + 1,
          n_completed_buffers := st.n_completed_buffers + 1,
          n_transferred_bytes := st.n_transferred_bytes + probe.2.2.2,
          output := st.output ++ [⟨b, some meta⟩] }
  | none => st

/-- One iteration of the `while (!cancel)` loop. -/
def thread_iteration (st : ThreadState) (o : IterOracle) : ThreadState :=
  dequeue_phase (submit_phase st o.popped) o.dq o.real_time_us

/-- The shutdown drain (lines 182-186): every buffer still in the hash
table is pushed back to the output side (unstamped). -/
def shutdown_drain (st : ThreadState) : ThreadState :=
  { st with output := st.output ++ st.buffers.map (fun e => ⟨e.2, none⟩) }

/-- A fresh thread state (empty table, counters and output at zero). -/
def initThreadState (pf w h : Nat) : ThreadState :=
  ⟨[], 0, 0, 0, [], pf, w, h⟩

/-- A whole run of the thread: iterate until cancellation is observed
(the oracle trace lists the iterations that occur), then drain. -/
def thread_run (st : ThreadState) (iters : List IterOracle) : ThreadState :=
  shutdown_drain (iters.foldl thread_iteration st)

/-- The buffers delivered through the dequeue path (stamped pushes), in
order. -/
def dequeued_ids (st : ThreadState) : List Nat :=
  st.output.filterMap (fun o => if o.stamped.isSome then some o.buf_id else none)

/-- The buffers whose submission (`VIDIOC_QBUF`) succeeded somewhere in
the trace, in order. -/
def submitted_events (iters : List IterOracle) : List PopEvent :=
  iters.flatMap (fun o => o.popped.filter (fun e => e.qbuf_ok))

/-! ## Helper lemmas about `strncpy_model` -/

theorem strncpy_model_length (src : List Nat) (n : Nat) :
    (strncpy_model src n).length = n := by
  induction src generalizing n with
  | nil =>
      cases n with
      | zero => rfl
      | succ m => simp [strncpy_model]
  | cons b rest ih =>
      cases n with
      | zero => rfl
      | succ m =>
          by_cases hb : b = 0
          · simp [strncpy_model, hb]
          · simp [strncpy_model, hb, ih]

theorem strncpy_model_takeWhile (src : List Nat) (n : Nat) :
    (strncpy_model src n).takeWhile (fun b => b != 0) =
      (src.takeWhile (fun b => b != 0)).take n := by
  induction src generalizing n with
  | nil =>
      cases n with
      | zero => rfl
      | succ m => simp [strncpy_model, List.takeWhile_replicate]
  | cons b rest ih =>
      cases n with
      | zero => simp [strncpy_model]
      | succ m =>
          by_cases hb : b = 0
          · simp [strncpy_model, hb, List.takeWhile_replicate, List.takeWhile_cons]
          · simp [strncpy_model, hb, List.takeWhile_cons, ih]

theorem takeWhile_append_zero (l : List Nat) :
    ((l ++ [0]).takeWhile (fun b => b != 0)) = l.takeWhile (fun b => b != 0) := by
  induction l with
  | nil => simp [List.takeWhile_cons]
  | cons b rest ih =>
      by_cases hb : b = 0 <;> simp [List.takeWhile_cons, hb, ih]

/-- The properties of the byte image that an identity-string read leaves
in the buffer: exactly `k` bytes long, null-terminated, with content (the
bytes before the first null) equal to the source string truncated to at
most `k - 1` bytes. -/
theorem strncpy_write_props (src : List Nat) (k : Nat) (hk : 1 ≤ k) :
    (strncpy_write src k).length = k ∧
    (strncpy_write src k).getLast? = some 0 ∧
    (strncpy_write src k).takeWhile (fun b => b != 0) =
      (src.takeWhile (fun b => b != 0)).take (k - 1) ∧
    ((strncpy_write src k).takeWhile (fun b => b != 0)).length ≤ k - 1 := by
  refine ⟨?_, ?_, ?_, ?_⟩
  · simp [strncpy_write, strncpy_model_length]
    omega
  · exact List.getLast?_concat _
  · rw [strncpy_write, takeWhile_append_zero, strncpy_model_takeWhile]
  · rw [strncpy_write, takeWhile_append_zero, strncpy_model_takeWhile]
    simp [List.length_take]

/-! ## Address groups -/

def identity_addresses : List Nat :=
  [ARV_V4L2_ADDRESS_DEVICE_VENDOR_NAME, ARV_V4L2_ADDRESS_DEVICE_MODEL_NAME,
   ARV_V4L2_ADDRESS_DEVICE_VERSION, ARV_V4L2_ADDRESS_DEVICE_MANUFACTURER_INFO,
   ARV_V4L2_ADDRESS_DEVICE_ID]

def numeric_addresses : List Nat :=
  [ARV_V4L2_ADDRESS_WIDTH, ARV_V4L2_ADDRESS_HEIGHT,
   ARV_V4L2_ADDRESS_PAYLOAD_SIZE, ARV_V4L2_ADDRESS_PIXEL_FORMAT]

/-- The C string an identity-string address resolves to
(arvv4l2device.c, lines 196-210). -/
def identity_source (priv : ArvV4l2DevicePrivate) (address : Nat) : List Nat :=
  if address = ARV_V4L2_ADDRESS_DEVICE_VENDOR_NAME then priv.device_driver
  else if address = ARV_V4L2_ADDRESS_DEVICE_MODEL_NAME then priv.device_card
  else if address = ARV_V4L2_ADDRESS_DEVICE_VERSION then priv.device_version
  else if address = ARV_V4L2_ADDRESS_DEVICE_MANUFACTURER_INFO then aravis_bytes
  else priv.device_file

/-- The bounds check guarding the numeric-register reads
(arvv4l2device.c, lines 215-216). -/
def idx_in_bounds (priv : ArvV4l2DevicePrivate) : Prop :=
  priv.pixel_format_idx < priv.frame_sizes.length ∧
    priv.pixel_format_idx < priv.pixel_formats.length

instance (priv : ArvV4l2DevicePrivate) : Decidable (idx_in_bounds priv) :=
  inferInstanceAs (Decidable (_ ∧ _))

/-! ## Claim theorems: memory access (C1, C2, C6, C10) -/

/-- C6: reading any identity-string address (vendor, model, version,
manufacturer info, device id) with requested byte length `k ≥ 1` succeeds
and writes exactly `k` bytes (so never past `k`): at most `k - 1` content
bytes — the underlying string truncated to `k - 1` bytes — followed by a
terminating null, regardless of the underlying string's length. -/
theorem c6_identity_read_truncation (priv : ArvV4l2DevicePrivate)
    (payload_oracle : Option Nat) (uninit : Nat) (address k : Nat)
    (hk : 1 ≤ k) (hid : address ∈ identity_addresses) :
    (arv_v4l2_device_read_memory priv payload_oracle uninit address k false).ok = true ∧
    ∃ w, (arv_v4l2_device_read_memory priv payload_oracle uninit address k false).written
        = some w ∧
      w.length = k ∧
      w.getLast? = some 0 ∧
      w.takeWhile (fun b => b != 0) =
        ((identity_source priv address).takeWhile (fun b => b != 0)).take (k - 1) ∧
      (w.takeWhile (fun b => b != 0)).length ≤ k - 1 := by
  have hlt : ¬ k < 1 := by omega
  simp only [identity_addresses, List.mem_cons, List.mem_singleton,
    List.not_mem_nil, or_false] at hid
  rcases hid with h | h | h | h | h <;> subst h <;>
    refine ⟨?_, strncpy_write _ k, ?_, strncpy_write_props _ k hk⟩ <;>
    simp [arv_v4l2_device_read_memory, identity_source, hlt,
      ARV_V4L2_ADDRESS_DEVICE_VENDOR_NAME, ARV_V4L2_ADDRESS_DEVICE_MODEL_NAME,
      ARV_V4L2_ADDRESS_DEVICE_VERSION, ARV_V4L2_ADDRESS_DEVICE_MANUFACTURER_INFO,
      ARV_V4L2_ADDRESS_DEVICE_ID]

/-- Witness for C6 at a concrete device and length. -/
theorem c6_identity_read_truncation_witness :
    (arv_v4l2_device_read_memory
      ⟨[100], [99], [118], [65, 66, 67], 0, 0, 0, [], []⟩ none 0
      ARV_V4L2_ADDRESS_DEVICE_VENDOR_NAME 3 false).ok = true ∧
    ∃ w, (arv_v4l2_device_read_memory
      ⟨[100], [99], [118], [65, 66, 67], 0, 0, 0, [], []⟩ none 0
      ARV_V4L2_ADDRESS_DEVICE_VENDOR_NAME 3 false).written = some w ∧
      w.length = 3 ∧
      w.getLast? = some 0 ∧
      w.takeWhile (fun b => b != 0) =
        ((identity_source ⟨[100], [99], [118], [65, 66, 67], 0, 0, 0, [], []⟩
          ARV_V4L2_ADDRESS_DEVICE_VENDOR_NAME).takeWhile (fun b => b != 0)).take 2 ∧
      (w.takeWhile (fun b => b != 0)).length ≤ 2 :=
  c6_identity_read_truncation ⟨[100], [99], [118], [65, 66, 67], 0, 0, 0, [], []⟩
    none 0 ARV_V4L2_ADDRESS_DEVICE_VENDOR_NAME 3 (by decide) (by decide)

/-- C10: a read with `byte_length < 1` or a NULL destination buffer
returns failure immediately without setting any error value (first
conjunct), whereas every other failing read path sets `InvalidAddress`
(second conjunct): with `byte_length ≥ 1` and a non-null buffer, a failed
read always carries `InvalidAddress`. -/
theorem c10_early_return_sets_no_error :
    (∀ (priv : ArvV4l2DevicePrivate) (payload_oracle : Option Nat)
        (uninit address size : Nat) (buffer_null : Bool),
      size < 1 ∨ buffer_null = true →
      arv_v4l2_device_read_memory priv payload_oracle uninit address size buffer_null
        = ⟨false, none, none⟩) ∧
    (∀ (priv : ArvV4l2DevicePrivate) (payload_oracle : Option Nat)
        (uninit address size : Nat),
      1 ≤ size →
      (arv_v4l2_device_read_memory priv payload_oracle uninit address size false).ok
        = false →
      (arv_v4l2_device_read_memory priv payload_oracle uninit address size false).err
        = some ArvDeviceError.invalid_address) := by
  constructor
  · intro priv payload_oracle uninit address size buffer_null h
    rcases h with h | h
    · simp [arv_v4l2_device_read_memory, h]
    · subst h
      simp [arv_v4l2_device_read_memory]
  · intro priv payload_oracle uninit address size hs
    have hs0 : ¬ size = 0 := by omega
    by_cases ha1 : address = ARV_V4L2_ADDRESS_DEVICE_VENDOR_NAME
    · simp [arv_v4l2_device_read_memory, hs0, ha1,
        ARV_V4L2_ADDRESS_DEVICE_VENDOR_NAME]
    by_cases ha2 : address = ARV_V4L2_ADDRESS_DEVICE_MODEL_NAME
    · simp [arv_v4l2_device_read_memory, hs0, ha1, ha2,
        ARV_V4L2_ADDRESS_DEVICE_VENDOR_NAME, ARV_V4L2_ADDRESS_DEVICE_MODEL_NAME]
    by_cases ha3 : address = ARV_V4L2_ADDRESS_DEVICE_VERSION
    · simp [arv_v4l2_device_read_memory, hs0, ha1, ha2, ha3,
        ARV_V4L2_ADDRESS_DEVICE_VENDOR_NAME, ARV_V4L2_ADDRESS_DEVICE_MODEL_NAME,
        ARV_V4L2_ADDRESS_DEVICE_VERSION]
    by_cases ha4 : address = ARV_V4L2_ADDRESS_DEVICE_MANUFACTURER_INFO
    · simp [arv_v4l2_device_read_memory, hs0, ha1, ha2, ha3, ha4,
        ARV_V4L2_ADDRESS_DEVICE_VENDOR_NAME, ARV_V4L2_ADDRESS_DEVICE_MODEL_NAME,
        ARV_V4L2_ADDRESS_DEVICE_VERSION, ARV_V4L2_ADDRESS_DEVICE_MANUFACTURER_INFO]
    by_cases ha5 : address = ARV_V4L2_ADDRESS_DEVICE_ID
    · simp [arv_v4l2_device_read_memory, hs0, ha1, ha2, ha3, ha4, ha5,
        ARV_V4L2_ADDRESS_DEVICE_VENDOR_NAME, ARV_V4L2_ADDRESS_DEVICE_MODEL_NAME,
        ARV_V4L2_ADDRESS_DEVICE_VERSION, ARV_V4L2_ADDRESS_DEVICE_MANUFACTURER_INFO,
        ARV_V4L2_ADDRESS_DEVICE_ID]
    by_cases hsz : size = 4
    · by_cases hbnd : priv.pixel_format_idx < priv.frame_sizes.length ∧
          priv.pixel_format_idx < priv.pixel_formats.length
      · by_cases hw : address = ARV_V4L2_ADDRESS_WIDTH
        · simp [arv_v4l2_device_read_memory, hs0, ha1, ha2, ha3, ha4, ha5, hsz,
            hbnd.1, hbnd.2, hw, ARV_V4L2_ADDRESS_DEVICE_VENDOR_NAME,
            ARV_V4L2_ADDRESS_DEVICE_MODEL_NAME, ARV_V4L2_ADDRESS_DEVICE_VERSION,
            ARV_V4L2_ADDRESS_DEVICE_MANUFACTURER_INFO, ARV_V4L2_ADDRESS_DEVICE_ID,
            ARV_V4L2_ADDRESS_WIDTH]
        by_cases hh : address = ARV_V4L2_ADDRESS_HEIGHT
        · simp [arv_v4l2_device_read_memory, hs0, ha1, ha2, ha3, ha4, ha5, hsz,
            hbnd.1, hbnd.2, hh, ARV_V4L2_ADDRESS_DEVICE_VENDOR_NAME,
            ARV_V4L2_ADDRESS_DEVICE_MODEL_NAME, ARV_V4L2_ADDRESS_DEVICE_VERSION,
            ARV_V4L2_ADDRESS_DEVICE_MANUFACTURER_INFO, ARV_V4L2_ADDRESS_DEVICE_ID,
            ARV_V4L2_ADDRESS_WIDTH, ARV_V4L2_ADDRESS_HEIGHT]
        by_cases hp : address = ARV_V4L2_ADDRESS_PAYLOAD_SIZE
        · simp [arv_v4l2_device_read_memory, hs0, ha1, ha2, ha3, ha4, ha5, hsz,
            hbnd.1, hbnd.2, hp, ARV_V4L2_ADDRESS_DEVICE_VENDOR_NAME,
            ARV_V4L2_ADDRESS_DEVICE_MODEL_NAME, ARV_V4L2_ADDRESS_DEVICE_VERSION,
            ARV_V4L2_ADDRESS_DEVICE_MANUFACTURER_INFO, ARV_V4L2_ADDRESS_DEVICE_ID,
            ARV_V4L2_ADDRESS_WIDTH, ARV_V4L2_ADDRESS_HEIGHT,
            ARV_V4L2_ADDRESS_PAYLOAD_SIZE]
        by_cases hpf : address = ARV_V4L2_ADDRESS_PIXEL_FORMAT
        · simp [arv_v4l2_device_read_memory, hs0, ha1, ha2, ha3, ha4, ha5, hsz,
            hbnd.1, hbnd.2, hpf, ARV_V4L2_ADDRESS_DEVICE_VENDOR_NAME,
            ARV_V4L2_ADDRESS_DEVICE_MODEL_NAME, ARV_V4L2_ADDRESS_DEVICE_VERSION,
            ARV_V4L2_ADDRESS_DEVICE_MANUFACTURER_INFO, ARV_V4L2_ADDRESS_DEVICE_ID,
            ARV_V4L2_ADDRESS_WIDTH, ARV_V4L2_ADDRESS_HEIGHT,
            ARV_V4L2_ADDRESS_PAYLOAD_SIZE, ARV_V4L2_ADDRESS_PIXEL_FORMAT]
        simp [arv_v4l2_device_read_memory, hs0, ha1, ha2, ha3, ha4, ha5, hsz,
          hbnd.1, hbnd.2, hw, hh, hp, hpf]
      · simp [arv_v4l2_device_read_memory, hs0, ha1, ha2, ha3, ha4, ha5, hsz, hbnd]
    · simp [arv_v4l2_device_read_memory, hs0, ha1, ha2, ha3, ha4, ha5, hsz]

/-- Witness for C10: the early-return path at `size = 0` yields failure
with no error set, while an invalid-address failure at `size = 4` does
set `InvalidAddress`. -/
theorem c10_early_return_sets_no_error_witness :
    arv_v4l2_device_read_memory ⟨[], [], [], [], 0, 0, 0, [], []⟩ none 0 0x0200 0 false
      = ⟨false, none, none⟩ ∧
    (arv_v4l2_device_read_memory ⟨[], [], [], [], 0, 0, 0, [], []⟩ none 0 0x0200 4
      false).err = some ArvDeviceError.invalid_address :=
  ⟨c10_early_return_sets_no_error.1 _ none 0 0x0200 0 false (Or.inl (by decide)),
   c10_early_return_sets_no_error.2 _ none 0 0x0200 4 (by decide) (by decide)⟩

/-- C2, counterexample: reading the width address with `byte_length = 2`
(a "mismatched length") does NOT fail with `InvalidAddress` — the
`size == 4` block is simply skipped, `found` keeps its initial TRUE, and
the call returns success with no error and the buffer untouched. -/
theorem c2_counterexample :
    arv_v4l2_device_read_memory
      ⟨[100], [99], [118], [65], 0, 0, 0, [ARV_PIXEL_FORMAT_RGB_8_PACKED],
        [⟨1, 640, 480, 0, 0, 0, 0⟩]⟩ none 0 ARV_V4L2_ADDRESS_WIDTH 2 false
      = ⟨true, none, none⟩ := by decide

/-- C2 as amended: for a read of a non-identity-string address with
`byte_length ≥ 1` and a non-null buffer: with `byte_length = 4` the read
succeeds exactly when the address is one of the four numeric addresses
and `pixel_format_idx` is within both tables, and fails with
`InvalidAddress` otherwise; with any other byte length the read returns
success without touching the buffer and without setting an error. -/
theorem c2_amended_read_semantics (priv : ArvV4l2DevicePrivate)
    (payload_oracle : Option Nat) (uninit address size : Nat)
    (hid : address ∉ identity_addresses) (hs : 1 ≤ size) :
    (size = 4 → idx_in_bounds priv → address ∈ numeric_addresses →
      (arv_v4l2_device_read_memory priv payload_oracle uninit address size false).ok
          = true ∧
        (arv_v4l2_device_read_memory priv payload_oracle uninit address size false).err
          = none) ∧
    (size = 4 → (¬ idx_in_bounds priv ∨ address ∉ numeric_addresses) →
      arv_v4l2_device_read_memory priv payload_oracle uninit address size false
        = ⟨false, some ArvDeviceError.invalid_address, none⟩) ∧
    (size ≠ 4 →
      arv_v4l2_device_read_memory priv payload_oracle uninit address size false
        = ⟨true, none, none⟩) := by
  have hlt : ¬ (size < 1 ∨ false = true) := by simp; omega
  simp only [identity_addresses, List.mem_cons, List.mem_singleton,
    List.not_mem_nil, or_false, not_or] at hid
  obtain ⟨h1, h2, h3, h4, h5⟩ := hid
  refine ⟨?_, ?_, ?_⟩
  · intro h4s hb hn
    subst h4s
    simp only [numeric_addresses, List.mem_cons, List.mem_singleton,
      List.not_mem_nil, or_false] at hn
    simp only [idx_in_bounds] at hb
    rcases hn with h | h | h | h <;> subst h <;>
      simp [arv_v4l2_device_read_memory, hlt, h1, h2, h3, h4, h5, hb.1, hb.2,
        ARV_V4L2_ADDRESS_WIDTH, ARV_V4L2_ADDRESS_HEIGHT,
        ARV_V4L2_ADDRESS_PAYLOAD_SIZE, ARV_V4L2_ADDRESS_PIXEL_FORMAT,
        ARV_V4L2_ADDRESS_DEVICE_VENDOR_NAME, ARV_V4L2_ADDRESS_DEVICE_MODEL_NAME,
        ARV_V4L2_ADDRESS_DEVICE_VERSION, ARV_V4L2_ADDRESS_DEVICE_MANUFACTURER_INFO,
        ARV_V4L2_ADDRESS_DEVICE_ID]
  · intro h4s hfail
    subst h4s
    rw [arv_v4l2_device_read_memory, if_neg hlt,
      if_neg h1, if_neg h2, if_neg h3, if_neg h4, if_neg h5, if_pos rfl]
    rcases hfail with hb | hn
    · have hb' : ¬ (priv.pixel_format_idx < priv.frame_sizes.length ∧
          priv.pixel_format_idx < priv.pixel_formats.length) := by
        simpa [idx_in_bounds] using hb
      rw [if_neg hb']
    · simp only [numeric_addresses, List.mem_cons, List.mem_singleton,
        List.not_mem_nil, or_false, not_or] at hn
      obtain ⟨n1, n2, n3, n4⟩ := hn
      simp [n1, n2, n3, n4]
  · intro hne
    rw [arv_v4l2_device_read_memory, if_neg hlt,
      if_neg h1, if_neg h2, if_neg h3, if_neg h4, if_neg h5, if_neg hne]

/-- Witness for the amended C2 at a concrete device and the width
address. -/
theorem c2_amended_read_semantics_witness :
    ((4 : Nat) = 4 →
      idx_in_bounds ⟨[100], [99], [118], [65], 0, 0, 0,
        [ARV_PIXEL_FORMAT_RGB_8_PACKED], [⟨1, 640, 480, 0, 0, 0, 0⟩]⟩ →
      ARV_V4L2_ADDRESS_WIDTH ∈ numeric_addresses →
      (arv_v4l2_device_read_memory
        ⟨[100], [99], [118], [65], 0, 0, 0, [ARV_PIXEL_FORMAT_RGB_8_PACKED],
          [⟨1, 640, 480, 0, 0, 0, 0⟩]⟩ none 0 ARV_V4L2_ADDRESS_WIDTH 4 false).ok
          = true ∧
        (arv_v4l2_device_read_memory
          ⟨[100], [99], [118], [65], 0, 0, 0, [ARV_PIXEL_FORMAT_RGB_8_PACKED],
            [⟨1, 640, 480, 0, 0, 0, 0⟩]⟩ none 0 ARV_V4L2_ADDRESS_WIDTH 4 false).err
          = none) ∧
    ((4 : Nat) = 4 →
      (¬ idx_in_bounds ⟨[100], [99], [118], [65], 0, 0, 0,
          [ARV_PIXEL_FORMAT_RGB_8_PACKED], [⟨1, 640, 480, 0, 0, 0, 0⟩]⟩ ∨
        ARV_V4L2_ADDRESS_WIDTH ∉ numeric_addresses) →
      arv_v4l2_device_read_memory
        ⟨[100], [99], [118], [65], 0, 0, 0, [ARV_PIXEL_FORMAT_RGB_8_PACKED],
          [⟨1, 640, 480, 0, 0, 0, 0⟩]⟩ none 0 ARV_V4L2_ADDRESS_WIDTH 4 false
        = ⟨false, some ArvDeviceError.invalid_address, none⟩) ∧
    ((4 : Nat) ≠ 4 →
      arv_v4l2_device_read_memory
        ⟨[100], [99], [118], [65], 0, 0, 0, [ARV_PIXEL_FORMAT_RGB_8_PACKED],
          [⟨1, 640, 480, 0, 0, 0, 0⟩]⟩ none 0 ARV_V4L2_ADDRESS_WIDTH 4 false
        = ⟨true, none, none⟩) :=
  c2_amended_read_semantics _ none 0 ARV_V4L2_ADDRESS_WIDTH 4
    (by decide) (by decide)

/-- C1 (evaluation at the failing input): writing a pixel-format value
that IS present in the table (here at index 1) updates
`pixel_format_idx` to the matching index, yet the operation still FAILS
with `InvalidAddress` — the search loop has no `break`, so the loop
counter always ends equal to the table length and the not-found check
always fires.  The claim's "the operation succeeds" is violated. -/
theorem c1_matching_pixel_format_write_still_fails :
    arv_v4l2_device_write_memory
      ⟨[100], [99], [118], [65], 0, 0, 0,
        [ARV_PIXEL_FORMAT_RGB_8_PACKED, ARV_PIXEL_FORMAT_YUV_422_PACKED],
        [⟨1, 640, 480, 0, 0, 0, 0⟩, ⟨1, 320, 240, 0, 0, 0, 0⟩]⟩
      ARV_V4L2_ADDRESS_PIXEL_FORMAT 4 ARV_PIXEL_FORMAT_YUV_422_PACKED
      = ⟨false, some ArvDeviceError.invalid_address, 1, none⟩ ∧
    ARV_PIXEL_FORMAT_YUV_422_PACKED ∈
      [ARV_PIXEL_FORMAT_RGB_8_PACKED, ARV_PIXEL_FORMAT_YUV_422_PACKED] := by
  decide

/-! ## Helper lemmas about the enumeration loop -/

theorem frame_sizes_loop_idx (sizes : List Frmsizeenum) :
    ∀ (st : ConstructState) (i j : Nat),
      (frame_sizes_loop st i j sizes).priv.pixel_format_idx
        = st.priv.pixel_format_idx := by
  induction sizes with
  | nil => intro st i j; rfl
  | cons fs rest ih =>
      intro st i j
      simp only [frame_sizes_loop]
      rw [ih]
      all_goals split <;> split <;> rfl

theorem frame_sizes_loop_entries (sizes : List Frmsizeenum) :
    ∀ (st : ConstructState) (i j : Nat),
      (frame_sizes_loop st i j sizes).enum_entries = st.enum_entries := by
  induction sizes with
  | nil => intro st i j; rfl
  | cons fs rest ih =>
      intro st i j
      simp only [frame_sizes_loop]
      rw [ih]

theorem frame_sizes_loop_pixel_formats (sizes : List Frmsizeenum) :
    ∀ (st : ConstructState) (i j : Nat),
      (frame_sizes_loop st i j sizes).priv.pixel_formats
        = st.priv.pixel_formats := by
  induction sizes with
  | nil => intro st i j; rfl
  | cons fs rest ih =>
      intro st i j
      simp only [frame_sizes_loop]
      rw [ih]
      all_goals split <;> split <;> rfl

theorem process_format_idx_supported (st : ConstructState) (i : Nat) (f : FmtDesc)
    (h : is_supported f = true) :
    (process_format st i f).priv.pixel_format_idx = i := by
  have hg : ¬ pfmLookup f.pixelformat = 0 := by
    simpa [is_supported] using h
  simp only [process_format, if_neg hg]
  rw [frame_sizes_loop_idx]

theorem process_format_idx_unsupported (st : ConstructState) (i : Nat) (f : FmtDesc)
    (h : is_supported f = false) :
    (process_format st i f).priv.pixel_format_idx = st.priv.pixel_format_idx := by
  have hg : pfmLookup f.pixelformat = 0 := by
    simpa [is_supported] using h
  simp only [process_format, if_pos hg]

theorem construct_loop_idx_none (fmts : List FmtDesc) :
    ∀ (st : ConstructState) (i : Nat),
      (∀ f ∈ fmts, is_supported f = false) →
      (construct_loop st i fmts).priv.pixel_format_idx
        = st.priv.pixel_format_idx := by
  induction fmts with
  | nil => intro st i _; rfl
  | cons f rest ih =>
      intro st i h
      simp only [construct_loop]
      rw [ih _ _ (fun g hg => h g (List.mem_cons_of_mem f hg)),
        process_format_idx_unsupported _ _ _ (h f (List.mem_cons_self f rest))]

theorem construct_loop_idx_last (fmts : List FmtDesc) :
    ∀ (st : ConstructState) (i j : Nat), j < fmts.length →
      is_supported (fmts.getD j dfltFmt) = true →
      (fmts.drop (j + 1)).all (fun f => ! is_supported f) = true →
      (construct_loop st i fmts).priv.pixel_format_idx = i + j := by
  induction fmts with
  | nil => intro st i j hj _ _; simp at hj
  | cons f rest ih =>
      intro st i j hj hsup hafter
      cases j with
      | zero =>
          simp only [construct_loop]
          rw [construct_loop_idx_none]
          · rw [process_format_idx_supported _ _ _ (by simpa using hsup)]
            omega
          · intro g hg
            have hall : ∀ x ∈ rest, is_supported x = false := by simpa using hafter
            exact hall g hg
      | succ j' =>
          simp only [construct_loop]
          rw [ih _ (i + 1) j' (by simpa using Nat.lt_of_succ_lt_succ hj)
            (by simpa using hsup) (by simpa using hafter)]
          omega

/-- C5: after construction, `pixel_format_idx` is the index of the last
enumerated format whose kernel code translates to a supported (nonzero)
generic code — the loop sets it inside the per-format iteration, so the
last visited supported format wins, not necessarily index 0 or the first
supported format. -/
theorem c5_active_format_is_last_supported
    (strings : List Nat × List Nat × List Nat × List Nat)
    (fmts : List FmtDesc) (j : Nat) (hj : j < fmts.length)
    (hsup : is_supported (fmts.getD j dfltFmt) = true)
    (hafter : (fmts.drop (j + 1)).all (fun f => ! is_supported f) = true) :
    (arv_v4l2_device_constructed strings fmts).priv.pixel_format_idx = j := by
  show (construct_loop _ 0 fmts).priv.pixel_format_idx = j
  rw [construct_loop_idx_last fmts _ 0 j hj hsup hafter]
  omega

/-- Witness for C5: two formats, the first unsupported, the second
supported — the active index ends at 1. -/
theorem c5_active_format_is_last_supported_witness :
    (arv_v4l2_device_constructed ([], [], [], [])
      [⟨777, "weird", [⟨1, 100, 100, 0, 0, 0, 0⟩]⟩,
       ⟨V4L2_PIX_FMT_RGB24, "RGB24", [⟨1, 640, 480, 0, 0, 0, 0⟩]⟩]).priv.pixel_format_idx
      = 1 :=
  c5_active_format_is_last_supported ([], [], [], [])
    [⟨777, "weird", [⟨1, 100, 100, 0, 0, 0, 0⟩]⟩,
     ⟨V4L2_PIX_FMT_RGB24, "RGB24", [⟨1, 640, 480, 0, 0, 0, 0⟩]⟩]
    1 (by decide) (by decide) (by decide)

set_option maxRecDepth 4096 in
/-- C7: with exactly the two kernel formats RGB24 (one discrete
640×480 frame size) and YUYV (one discrete 320×240 frame size), the
constructed adapter has `sensor_width = 640`, `sensor_height = 480`
(maxima across both formats), a pixel-format table with exactly the two
translated entries, and exactly two `<EnumEntry>` fragments in the
generated enumeration — valued by the generic codes of RGB24 and YUYV
respectively. -/
theorem c7_two_format_scenario :
    (arv_v4l2_device_constructed ([], [], [], [])
        [⟨V4L2_PIX_FMT_RGB24, "RGB24", [⟨V4L2_FRMSIZE_TYPE_DISCRETE, 640, 480, 0, 0, 0, 0⟩]⟩,
         ⟨V4L2_PIX_FMT_YUYV, "YUYV", [⟨V4L2_FRMSIZE_TYPE_DISCRETE, 320, 240, 0, 0, 0, 0⟩]⟩]).priv.sensor_width
      = 640 ∧
    (arv_v4l2_device_constructed ([], [], [], [])
        [⟨V4L2_PIX_FMT_RGB24, "RGB24", [⟨V4L2_FRMSIZE_TYPE_DISCRETE, 640, 480, 0, 0, 0, 0⟩]⟩,
         ⟨V4L2_PIX_FMT_YUYV, "YUYV", [⟨V4L2_FRMSIZE_TYPE_DISCRETE, 320, 240, 0, 0, 0, 0⟩]⟩]).priv.sensor_height
      = 480 ∧
    (arv_v4l2_device_constructed ([], [], [], [])
        [⟨V4L2_PIX_FMT_RGB24, "RGB24", [⟨V4L2_FRMSIZE_TYPE_DISCRETE, 640, 480, 0, 0, 0, 0⟩]⟩,
         ⟨V4L2_PIX_FMT_YUYV, "YUYV", [⟨V4L2_FRMSIZE_TYPE_DISCRETE, 320, 240, 0, 0, 0, 0⟩]⟩]).priv.pixel_formats
      = [ARV_PIXEL_FORMAT_RGB_8_PACKED, ARV_PIXEL_FORMAT_YUV_422_PACKED] ∧
    (arv_v4l2_device_constructed ([], [], [], [])
        [⟨V4L2_PIX_FMT_RGB24, "RGB24", [⟨V4L2_FRMSIZE_TYPE_DISCRETE, 640, 480, 0, 0, 0, 0⟩]⟩,
         ⟨V4L2_PIX_FMT_YUYV, "YUYV", [⟨V4L2_FRMSIZE_TYPE_DISCRETE, 320, 240, 0, 0, 0, 0⟩]⟩]).enum_entries
      = [("RGB24", ARV_PIXEL_FORMAT_RGB_8_PACKED), ("YUYV", ARV_PIXEL_FORMAT_YUV_422_PACKED)] ∧
    format_feature_text (arv_v4l2_device_constructed ([], [], [], [])
        [⟨V4L2_PIX_FMT_RGB24, "RGB24", [⟨V4L2_FRMSIZE_TYPE_DISCRETE, 640, 480, 0, 0, 0, 0⟩]⟩,
         ⟨V4L2_PIX_FMT_YUYV, "YUYV", [⟨V4L2_FRMSIZE_TYPE_DISCRETE, 320, 240, 0, 0, 0, 0⟩]⟩]).enum_entries
      = "<Enumeration Name=\"PixelFormat\">\n  <DisplayName>Pixel format</DisplayName>\n" ++
          (render_enum_entry ("RGB24", ARV_PIXEL_FORMAT_RGB_8_PACKED) ++
            render_enum_entry ("YUYV", ARV_PIXEL_FORMAT_YUV_422_PACKED)) ++
          "  <pValue>PixelFormatRegister</pValue>\n</Enumeration>" := by
  exact ⟨rfl, rfl, rfl, rfl, by decide⟩

/-! ## Characterisations of the enumeration results -/

/-- The `<EnumEntry>` fragment a single format contributes: none when its
kernel code is untranslatable, its description and generic code
otherwise. -/
def entry_of (f : FmtDesc) : Option (String × Nat) :=
  if pfmLookup f.pixelformat = 0 then none
  else some (f.description, pfmLookup f.pixelformat)

theorem g_array_insert_at_length (l : List α) (v zero : α) :
    g_array_insert l l.length v zero = l ++ [v] := by
  simp [g_array_insert]

theorem process_format_entries (st : ConstructState) (i : Nat) (f : FmtDesc) :
    (process_format st i f).enum_entries
      = st.enum_entries ++ (entry_of f).toList := by
  by_cases hg : pfmLookup f.pixelformat = 0
  · simp [process_format, entry_of, hg]
  · simp only [process_format, if_neg hg]
    rw [frame_sizes_loop_entries]
    simp [entry_of, hg]

theorem construct_loop_entries (fmts : List FmtDesc) :
    ∀ (st : ConstructState) (i : Nat),
      (construct_loop st i fmts).enum_entries
        = st.enum_entries ++ fmts.filterMap entry_of := by
  induction fmts with
  | nil => intro st i; simp [construct_loop]
  | cons f rest ih =>
      intro st i
      simp only [construct_loop]
      rw [ih, process_format_entries]
      cases hf : entry_of f <;> simp [List.filterMap_cons, hf]

theorem process_format_pixel_formats (st : ConstructState) (i : Nat) (f : FmtDesc)
    (h : st.priv.pixel_formats.length = i) :
    (process_format st i f).priv.pixel_formats
      = st.priv.pixel_formats ++ [pfmLookup f.pixelformat] := by
  by_cases hg : pfmLookup f.pixelformat = 0
  · simp only [process_format, if_pos hg]
    rw [← h, g_array_insert_at_length, hg]
  · simp only [process_format, if_neg hg]
    rw [frame_sizes_loop_pixel_formats]
    simp only
    rw [← h, g_array_insert_at_length]

theorem construct_loop_pixel_formats (fmts : List FmtDesc) :
    ∀ (st : ConstructState) (i : Nat), st.priv.pixel_formats.length = i →
      (construct_loop st i fmts).priv.pixel_formats
        = st.priv.pixel_formats ++ fmts.map (fun f => pfmLookup f.pixelformat) := by
  induction fmts with
  | nil => intro st i _; simp [construct_loop]
  | cons f rest ih =>
      intro st i h
      simp only [construct_loop]
      rw [ih _ (i + 1) (by rw [process_format_pixel_formats st i f h]; simp [h]),
        process_format_pixel_formats st i f h]
      simp

theorem construct_loop_append (as bs : List FmtDesc) :
    ∀ (st : ConstructState) (i : Nat),
      construct_loop st i (as ++ bs)
        = construct_loop (construct_loop st i as) (i + as.length) bs := by
  induction as with
  | nil => intro st i; simp [construct_loop]
  | cons f rest ih =>
      intro st i
      show construct_loop (process_format st i f) (i + 1) (rest ++ bs)
        = construct_loop (construct_loop (process_format st i f) (i + 1) rest)
            (i + (rest.length + 1)) bs
      rw [ih, show i + (rest.length + 1) = (i + 1) + rest.length from by omega]

theorem process_format_unsupported_congr (st : ConstructState) (k : Nat)
    (f g : FmtDesc) (hpf : g.pixelformat = f.pixelformat)
    (hd : g.description = f.description) (h : pfmLookup f.pixelformat = 0) :
    process_format st k g = process_format st k f := by
  simp [process_format, hpf, hd, h]

/-- C8: when the kernel reports a format whose code is absent from the
fixed translation table, construction still appends a sentinel 0 entry to
the pixel-format table at that format's index, emits no `<EnumEntry>`
fragment for it, never consults its frame sizes (the result is the same
for ANY frame-size list of that format), and continues through all later
formats (the table ends with one entry per reported format). -/
theorem c8_unknown_format_sentinel
    (strings : List Nat × List Nat × List Nat × List Nat)
    (fmts : List FmtDesc) (i : Nat) (hi : i < fmts.length)
    (hun : is_supported (fmts.getD i dfltFmt) = false) :
    (arv_v4l2_device_constructed strings fmts).priv.pixel_formats.length
      = fmts.length ∧
    (arv_v4l2_device_constructed strings fmts).priv.pixel_formats.getD i 1 = 0 ∧
    (arv_v4l2_device_constructed strings fmts).enum_entries
      = (fmts.take i ++ fmts.drop (i + 1)).filterMap entry_of ∧
    ∀ fs2 : List Frmsizeenum,
      arv_v4l2_device_constructed strings
        (fmts.take i ++
          ⟨(fmts.getD i dfltFmt).pixelformat, (fmts.getD i dfltFmt).description, fs2⟩ ::
            fmts.drop (i + 1))
        = arv_v4l2_device_constructed strings fmts := by
  have hg : pfmLookup (fmts.getD i dfltFmt).pixelformat = 0 := by
    simpa [is_supported] using hun
  have hsplit : fmts = fmts.take i ++ fmts.getD i dfltFmt :: fmts.drop (i + 1) := by
    conv_lhs => rw [← List.take_append_drop i fmts]
    congr 1
    rw [List.drop_eq_getElem_cons hi, List.getD_eq_getElem fmts dfltFmt hi]
  have hpf_all : (arv_v4l2_device_constructed strings fmts).priv.pixel_formats
      = fmts.map (fun f => pfmLookup f.pixelformat) := by
    show g_array_set_size (construct_loop
        { priv := { device_file := strings.1, device_card := strings.2.1,
                    device_version := strings.2.2.1, device_driver := strings.2.2.2,
                    sensor_width := 0, sensor_height := 0, pixel_format_idx := 0,
                    pixel_formats := [], frame_sizes := [] },
          enum_entries := [] } 0 fmts).priv.pixel_formats fmts.length 0
      = fmts.map (fun f => pfmLookup f.pixelformat)
    rw [construct_loop_pixel_formats fmts
      ({ priv := { device_file := strings.1, device_card := strings.2.1,
                   device_version := strings.2.2.1, device_driver := strings.2.2.2,
                   sensor_width := 0, sensor_height := 0, pixel_format_idx := 0,
                   pixel_formats := [], frame_sizes := [] },
         enum_entries := [] } : ConstructState) 0 rfl]
    simp [g_array_set_size]
  refine ⟨?_, ?_, ?_, ?_⟩
  · rw [hpf_all]; simp
  · rw [hpf_all]
    have hlen : i < (fmts.map (fun f => pfmLookup f.pixelformat)).length := by
      simpa using hi
    rw [List.getD_eq_getElem _ 1 hlen, List.getElem_map]
    rw [List.getD_eq_getElem fmts dfltFmt hi] at hg
    exact hg
  · show (construct_loop _ 0 fmts).enum_entries = _
    rw [construct_loop_entries fmts _ 0]
    conv_lhs => rw [hsplit]
    have he : entry_of (fmts.getD i dfltFmt) = none := by rw [entry_of, if_pos hg]
    rw [List.filterMap_append, List.filterMap_cons_none he, List.filterMap_append]
    simp
  · intro fs2
    conv_rhs => rw [hsplit]
    have hloop : ∀ (st : ConstructState),
        construct_loop st 0 (fmts.take i ++
          (⟨(fmts.getD i dfltFmt).pixelformat, (fmts.getD i dfltFmt).description, fs2⟩ : FmtDesc) ::
            fmts.drop (i + 1))
          = construct_loop st 0 (fmts.take i ++ fmts.getD i dfltFmt :: fmts.drop (i + 1)) := by
      intro st
      rw [construct_loop_append, construct_loop_append]
      simp only [construct_loop]
      rw [process_format_unsupported_congr _ _ (fmts.getD i dfltFmt)
        ⟨(fmts.getD i dfltFmt).pixelformat, (fmts.getD i dfltFmt).description, fs2⟩
        rfl rfl hg]
    have hlen2 : (fmts.take i ++
        (⟨(fmts.getD i dfltFmt).pixelformat, (fmts.getD i dfltFmt).description, fs2⟩ : FmtDesc) ::
          fmts.drop (i + 1)).length
        = (fmts.take i ++ fmts.getD i dfltFmt :: fmts.drop (i + 1)).length := by
      simp
    simp only [arv_v4l2_device_constructed]
    rw [hloop, hlen2]

/-- Witness for C8: first format unknown, second supported. -/
theorem c8_unknown_format_sentinel_witness :
    (arv_v4l2_device_constructed ([], [], [], [])
      [⟨777, "weird", [⟨1, 9999, 9999, 0, 0, 0, 0⟩]⟩,
       ⟨V4L2_PIX_FMT_RGB24, "RGB24", [⟨1, 640, 480, 0, 0, 0, 0⟩]⟩]).priv.pixel_formats.length
      = 2 ∧
    (arv_v4l2_device_constructed ([], [], [], [])
      [⟨777, "weird", [⟨1, 9999, 9999, 0, 0, 0, 0⟩]⟩,
       ⟨V4L2_PIX_FMT_RGB24, "RGB24", [⟨1, 640, 480, 0, 0, 0, 0⟩]⟩]).priv.pixel_formats.getD 0 1
      = 0 ∧
    (arv_v4l2_device_constructed ([], [], [], [])
      [⟨777, "weird", [⟨1, 9999, 9999, 0, 0, 0, 0⟩]⟩,
       ⟨V4L2_PIX_FMT_RGB24, "RGB24", [⟨1, 640, 480, 0, 0, 0, 0⟩]⟩]).enum_entries
      = (([⟨777, "weird", [⟨1, 9999, 9999, 0, 0, 0, 0⟩]⟩,
           ⟨V4L2_PIX_FMT_RGB24, "RGB24", [⟨1, 640, 480, 0, 0, 0, 0⟩]⟩] : List FmtDesc).take 0 ++
         ([⟨777, "weird", [⟨1, 9999, 9999, 0, 0, 0, 0⟩]⟩,
           ⟨V4L2_PIX_FMT_RGB24, "RGB24", [⟨1, 640, 480, 0, 0, 0, 0⟩]⟩] : List FmtDesc).drop 1).filterMap
          entry_of ∧
    arv_v4l2_device_constructed ([], [], [], [])
        (([⟨777, "weird", [⟨1, 9999, 9999, 0, 0, 0, 0⟩]⟩,
           ⟨V4L2_PIX_FMT_RGB24, "RGB24", [⟨1, 640, 480, 0, 0, 0, 0⟩]⟩] : List FmtDesc).take 0 ++
          ⟨777, "weird", []⟩ ::
            ([⟨777, "weird", [⟨1, 9999, 9999, 0, 0, 0, 0⟩]⟩,
              ⟨V4L2_PIX_FMT_RGB24, "RGB24", [⟨1, 640, 480, 0, 0, 0, 0⟩]⟩] : List FmtDesc).drop 1)
      = arv_v4l2_device_constructed ([], [], [], [])
        [⟨777, "weird", [⟨1, 9999, 9999, 0, 0, 0, 0⟩]⟩,
         ⟨V4L2_PIX_FMT_RGB24, "RGB24", [⟨1, 640, 480, 0, 0, 0, 0⟩]⟩] := by
  obtain ⟨h1, h2, h3, h4⟩ := c8_unknown_format_sentinel ([], [], [], [])
    ([⟨777, "weird", [⟨1, 9999, 9999, 0, 0, 0, 0⟩]⟩,
      ⟨V4L2_PIX_FMT_RGB24, "RGB24", [⟨1, 640, 480, 0, 0, 0, 0⟩]⟩] : List FmtDesc)
    0 (by decide) (by decide)
  exact ⟨h1, h2, h3, h4 []⟩

/-! ## Helper lemmas about the capture thread -/

theorem dequeue_phase_buffers (st : ThreadState) (dq : DqResult) (now : Int) :
    (dequeue_phase st dq now).buffers = st.buffers := by
  rcases dq with ⟨index, sec, usec, len⟩ | ⟨sec, usec, len⟩ <;>
    · simp only [dequeue_phase]
      split <;> rfl

theorem submit_phase_buffers (es : List PopEvent) :
    ∀ st : ThreadState,
      (submit_phase st es).buffers
        = (es.filter (fun e => e.qbuf_ok)).foldl
            (fun m e => htReplace m e.slot e.buf_id) st.buffers := by
  induction es with
  | nil => intro st; rfl
  | cons e rest ih =>
      intro st
      by_cases hq : e.qbuf_ok <;>
        simp [submit_phase, hq, ih, List.filter_cons]

theorem thread_loop_buffers (iters : List IterOracle) :
    ∀ st : ThreadState,
      (iters.foldl thread_iteration st).buffers
        = (submitted_events iters).foldl
            (fun m e => htReplace m e.slot e.buf_id) st.buffers := by
  induction iters with
  | nil => intro st; rfl
  | cons o rest ih =>
      intro st
      simp only [List.foldl_cons, submitted_events, List.flatMap_cons]
      rw [ih, List.foldl_append, thread_iteration, dequeue_phase_buffers,
        submit_phase_buffers]
      rfl

/-- The buffers the shutdown drain pushes back after the loop exits. -/
def drain_pushes (st0 : ThreadState) (iters : List IterOracle) : List Nat :=
  ((iters.foldl thread_iteration st0).buffers).map (fun e => e.2)

/-- The concrete trace refuting C3: one iteration that submits buffer 1
to slot 0 (QBUF succeeds) and then successfully dequeues slot 0. -/
def c3_trace : List IterOracle :=
  [⟨[⟨1, 0, true⟩], .success 0 1 2 100, 5⟩]

/-- C3, counterexample: the dequeue path looks buffers up with
`g_hash_table_lookup` and never removes them, so after a run in which
buffer 1 was submitted AND successfully dequeued (delivered to the output
side), the shutdown drain still pushes buffer 1 back — while the set of
buffers "submitted but never dequeued" is empty.  The drain is therefore
not "exactly the buffers that were submitted but never dequeued". -/
theorem c3_counterexample :
    drain_pushes (initThreadState 7 640 480) c3_trace
        ≠ ((submitted_events c3_trace).map (fun e => e.buf_id)).diff
            (dequeued_ids (List.foldl thread_iteration (initThreadState 7 640 480)
              c3_trace)) ∧
    drain_pushes (initThreadState 7 640 480) c3_trace = [1] ∧
    ((submitted_events c3_trace).map (fun e => e.buf_id)).diff
        (dequeued_ids (List.foldl thread_iteration (initThreadState 7 640 480)
          c3_trace)) = [] := by
  refine ⟨?_, by decide, by decide⟩
  decide

/-- C3 as amended: an entry is added (replacing any previous entry for
the slot) whenever a buffer is successfully submitted, and is never
removed while the loop runs — a successful dequeue only looks the entry
up.  Consequently the shutdown drain pushes back, for every slot that was
ever successfully submitted to, the most recently submitted buffer of
that slot, whether or not it was dequeued in the meantime. -/
theorem c3_amended_in_flight_map (iters : List IterOracle) (pf w h : Nat) :
    (thread_run (initThreadState pf w h) iters).output
      = (iters.foldl thread_iteration (initThreadState pf w h)).output ++
        ((submitted_events iters).foldl
            (fun m e => htReplace m e.slot e.buf_id) []).map
          (fun e => ⟨e.2, none⟩) := by
  show (shutdown_drain _).output = _
  rw [shutdown_drain]
  simp only
  rw [thread_loop_buffers]
  rfl

/-- The concrete iteration showing the timestamp arithmetic: the kernel
reports a completion on slot 0 with `tv_sec = 1`, `tv_usec = 2`. -/
def c4_iter : IterOracle := ⟨[⟨1, 0, true⟩], .success 0 1 2 100, 5⟩

/-- C4 (evaluation at the failing input): for a dequeued buffer with
kernel timestamp `tv_sec = 1`, `tv_usec = 2`, the code stamps
`timestamp_ns = 1000000000000 * 1 + 1000 * 2 = 1000000002000` — the
seconds factor is 10^12, not the nanosecond conversion 10^9 the field
name and the claim require (`1 * 10^9 + 2 * 10^3 = 1000002000`).  The
wall-clock half of the claim holds: `g_get_real_time () = 5` µs is
stamped as `5000` ns. -/
theorem c4_timestamp_not_nanoseconds :
    (thread_iteration (initThreadState 7 640 480) c4_iter).output
      = [⟨1, some ⟨.success, 1000000002000, 5000, 0, 100, 7, 640, 480⟩⟩] ∧
    (1000000002000 : Nat) ≠ 1 * 1000000000 + 2 * 1000 ∧
    (5000 : Int) = 5 * 1000 := by
  refine ⟨by decide, by decide, by decide⟩

/-- C9: when the `VIDIOC_DQBUF` ioctl fails, `bufd.index` keeps the value
0 stored into it just before the call, so if slot 0 currently has a
buffer in the in-flight table, that buffer is stamped with SUCCESS
status, given the next frame id and pushed to the output side exactly as
if a frame had completed — and the completion counter advances. -/
theorem c9_dqbuf_failure_redelivers_slot0 (st : ThreadState)
    (pops : List PopEvent) (s u l : Nat) (now : Int) (b : Nat)
    (h : htLookup (submit_phase st pops).buffers 0 = some b) :
    (thread_iteration st ⟨pops, .failure s u l, now⟩).output
      = (submit_phase st pops).output ++
        [⟨b, some ⟨.success, 1000000000000 * s + 1000 * u, now * 1000,
          (submit_phase st pops).frame_id, l, (submit_phase st pops).pixel_format,
          (submit_phase st pops).image_width,
          (submit_phase st pops).image_height⟩⟩] ∧
    (thread_iteration st ⟨pops, .failure s u l, now⟩).frame_id
      = (submit_phase st pops).frame_id + 1 ∧
    (thread_iteration st ⟨pops, .failure s u l, now⟩).n_completed_buffers
      = (submit_phase st pops).n_completed_buffers + 1 := by
  simp [thread_iteration, dequeue_phase, h]

/-- Witness for C9: a state whose in-flight table maps slot 0 to buffer
3, an iteration with no input buffers and a failing dequeue. -/
theorem c9_dqbuf_failure_redelivers_slot0_witness :
    (thread_iteration ⟨[(0, 3)], 0, 0, 0, [], 7, 640, 480⟩
        ⟨[], .failure 0 0 0, 0⟩).output
      = (submit_phase ⟨[(0, 3)], 0, 0, 0, [], 7, 640, 480⟩ []).output ++
        [⟨3, some ⟨.success, 1000000000000 * 0 + 1000 * 0, 0 * 1000,
          (submit_phase ⟨[(0, 3)], 0, 0, 0, [], 7, 640, 480⟩ []).frame_id, 0,
          (submit_phase ⟨[(0, 3)], 0, 0, 0, [], 7, 640, 480⟩ []).pixel_format,
          (submit_phase ⟨[(0, 3)], 0, 0, 0, [], 7, 640, 480⟩ []).image_width,
          (submit_phase ⟨[(0, 3)], 0, 0, 0, [], 7, 640, 480⟩ []).image_height⟩⟩] ∧
    (thread_iteration ⟨[(0, 3)], 0, 0, 0, [], 7, 640, 480⟩
        ⟨[], .failure 0 0 0, 0⟩).frame_id
      = (submit_phase ⟨[(0, 3)], 0, 0, 0, [], 7, 640, 480⟩ []).frame_id + 1 ∧
    (thread_iteration ⟨[(0, 3)], 0, 0, 0, [], 7, 640, 480⟩
        ⟨[], .failure 0 0 0, 0⟩).n_completed_buffers
      = (submit_phase ⟨[(0, 3)], 0, 0, 0, [], 7, 640, 480⟩ []).n_completed_buffers
        + 1 :=
  c9_dqbuf_failure_redelivers_slot0 ⟨[(0, 3)], 0, 0, 0, [], 7, 640, 480⟩
    [] 0 0 0 0 3 (by decide)

end ArvV4l2
